import Mathlib

/-!
Verification of the bridge module `src/src/py_jl/julia_funcs.py`.

The module is host-language (Python) glue around an embedded peer runtime
(Julia).  The host file is embedded directly; the peer script
`julia_funcs.jl` and the interop library are not part of the source tree,
so their behaviour is modelled from the specification (each such
definition carries a doc comment starting with `Modelled from the spec:`).

Host numbers are modelled exactly: integers as `ℤ` and floating-point
values as `ℚ` (the spec speaks only of finite numeric values, and doubling
is exact on them).  A bridge call is modelled as a function from the
runtime state to a result, the (unchanged or changed) state, and the list
of peer-runtime invocations it performed, so that claims about where a
computation happens and about state mutation are expressible.
-/

/-- A host-language value, as far as the bridge manipulates them:
integers, floating-point numbers, strings and the null value. -/
inductive PyVal where
  | int (i : ℤ)
  | float (q : ℚ)
  | str (s : String)
  | pyNone
deriving DecidableEq, Repr

/-- The error classes that can surface from a bridge call:
`runtimeInteropError` is the initialization-class error of the spec
(the interop library raising because the peer runtime is unavailable or
the peer function undefined); `typeError` and `valueError` are the host
conversion errors raised by the builtin `float`. -/
inductive PyError where
  | runtimeInteropError
  | typeError
  | valueError
deriving DecidableEq, Repr

/-- The host builtin `float` applied to a value: succeeds on `int` and
`float` arguments, raises `TypeError` on the null value and `ValueError`
on (non-numeric) strings.  (The real builtin also parses numeric strings;
no claim concerns string arguments, and no theorem below quantifies over
them in a way that depends on this case.) -/
def pyFloat : PyVal → Except PyError ℚ
  | PyVal.int i => Except.ok (i : ℚ)
  | PyVal.float q => Except.ok q
  | PyVal.str _ => Except.error PyError.valueError
  | PyVal.pyNone => Except.error PyError.typeError

/-- Whether a host value is a number (an `int` or a `float`), the input
domain the spec states for the doubling operation. -/
def PyVal.isNumeric : PyVal → Bool
  | PyVal.int _ => true
  | PyVal.float _ => true
  | _ => false

/-- Whether a host value is non-empty in the sense of the spec: the null
value and the empty string are empty, everything else is non-empty. -/
def PyVal.isNonEmpty : PyVal → Bool
  | PyVal.str s => !s.isEmpty
  | PyVal.pyNone => false
  | _ => true

/-- The state of the embedded peer runtime as the bridge observes it:
whether the interpreter was started, which of the two script functions are
defined in its global namespace, the greeting value its `hello` returns,
and which dependency environment (by root path) is active. -/
structure JuliaRuntime where
  started : Bool
  helloDefined : Bool
  floatDoubleDefined : Bool
  helloValue : PyVal
  envActive : Option (List String)
deriving DecidableEq, Repr

/-- A record of one invocation of a peer-runtime function: the name of
the peer function and the argument value forwarded to it (`none` for a
zero-argument call). -/
structure PeerCall where
  fname : String
  arg : Option PyVal
deriving DecidableEq, Repr

deriving instance DecidableEq for Except

/-- The outcome of a bridge call: the returned value or raised error, the
runtime state after the call, and the peer invocations performed. -/
structure CallResult where
  result : Except PyError PyVal
  state : JuliaRuntime
  calls : List PeerCall
deriving DecidableEq, Repr

/-- Modelled from the spec: `Main.hello()`, the peer-language function
`hello` (defined by the peer script, which is not under the source tree).
Per the external-interface contract it takes no arguments and returns the
greeting value; it is pure, so the state is returned unchanged.  If the
runtime is not started or the function is undefined, the interop layer
raises the initialization-class error instead. -/
def Main_hello (st : JuliaRuntime) : CallResult :=
  if st.started && st.helloDefined then
    ⟨Except.ok st.helloValue, st, [⟨"hello", none⟩]⟩
  else
    ⟨Except.error PyError.runtimeInteropError, st, []⟩

/-- Modelled from the spec: `Main.float_double(x)`, the peer-language
function `float_double` (defined by the peer script, which is not under
the source tree).  Per the external-interface contract it takes one
floating-point argument and returns it multiplied by two, with no side
effects, so the state is returned unchanged.  If the runtime is not
started or the function is undefined, the interop layer raises the
initialization-class error instead. -/
def Main_float_double (st : JuliaRuntime) (x : ℚ) : CallResult :=
  if st.started && st.floatDoubleDefined then
    ⟨Except.ok (PyVal.float (2 * x)), st, [⟨"float_double", some (PyVal.float x)⟩]⟩
  else
    ⟨Except.error PyError.runtimeInteropError, st, []⟩

/-- `hello()` of `julia_funcs.py` (lines 10 to 14): delegate to the
peer-language function of the same name and return its value. -/
def hello (st : JuliaRuntime) : CallResult :=
  Main_hello st

/-- `float_double(n)` of `julia_funcs.py` (lines 16 to 23):
`tmp = float(n); return Main.float_double(tmp)`.  If the conversion
raises, that exception propagates and the peer runtime is never invoked. -/
def float_double (st : JuliaRuntime) (n : PyVal) : CallResult :=
  match pyFloat n with
  | Except.error e => ⟨Except.error e, st, []⟩
  | Except.ok tmp => Main_float_double st tmp

/-- Modelled from the spec: the second observed variant of the doubling
function, which computes `n*2` directly in the host language instead of
delegating to the peer runtime (the spec notes this variant; it is not
under the source tree).  Host multiplication by two keeps the type of a
numeric argument and raises a `TypeError` on non-numeric ones; no peer
invocation is performed. -/
def float_double_local (st : JuliaRuntime) (n : PyVal) : CallResult :=
  match n with
  | PyVal.int i => ⟨Except.ok (PyVal.int (i * 2)), st, []⟩
  | PyVal.float q => ⟨Except.ok (PyVal.float (q * 2)), st, []⟩
  | _ => ⟨Except.error PyError.typeError, st, []⟩

/-- The path of the bridge module itself, as a list of path components. -/
def moduleFile : List String := ["src", "py_jl", "julia_funcs.py"]

/-- The directory containing the bridge module. -/
def moduleDir : List String := moduleFile.dropLast

/-- `p = Path(__file__).parent / "julia_funcs.jl"` (line 6): the peer
script path, resolved relative to the location of the module. -/
def scriptPath : List String := moduleDir ++ ["julia_funcs.jl"]

/-- `str(p.parent.parent)` (line 7): the root of the dependency
environment, the grandparent directory of the peer script. -/
def envRoot : List String := scriptPath.dropLast.dropLast

/-- One module-level initialization action, in the order the module
performs them at load. -/
inductive InitStep where
  | resolvePath (p : List String)
  | pkgActivate (root : List String)
  | includeFile (p : List String)
deriving DecidableEq, Repr

/-- Modelled from the spec: `Julia(compiled_modules=False)` (line 3)
starts the embedded peer interpreter; nothing is defined in its global
namespace yet and no dependency environment is active. -/
def juliaStart : JuliaRuntime :=
  ⟨true, false, false, PyVal.pyNone, none⟩

/-- Modelled from the spec: `Pkg.activate(root)` (line 7) activates the
dependency environment rooted at the given directory. -/
def pkgActivateEffect (st : JuliaRuntime) (root : List String) : JuliaRuntime :=
  { st with envActive := some root }

/-- Modelled from the spec: `Main.include(script)` (line 8) executes the
peer script, populating the peer global namespace with `hello` (returning
a greeting value, modelled by a fixed non-empty string) and
`float_double`. -/
def includeEffect (st : JuliaRuntime) : JuliaRuntime :=
  { st with
      helloDefined := true
      floatDoubleDefined := true
      helloValue := PyVal.str "Hello from Julia" }

/-- The module-level statements of `julia_funcs.py` (lines 1 to 8), run
once at module load, in source order: resolve the script path relative to
the module, activate the dependency environment at the fixed ancestor
directory, execute the script.  Returns the resulting runtime state and
the trace of initialization actions. -/
def moduleInit : JuliaRuntime × List InitStep :=
  let st0 := juliaStart
  let st1 := pkgActivateEffect st0 envRoot
  let st2 := includeEffect st1
  (st2, [InitStep.resolvePath scriptPath, InitStep.pkgActivate envRoot,
         InitStep.includeFile scriptPath])

/-- The runtime state right after a successful module load. -/
def readyRuntime : JuliaRuntime := moduleInit.fst

/-- C1: for every numeric input accepted by the bridge, converting to the
value `q`, and given a started runtime in which the peer function is
defined (the peer contract being modelled as stated by the spec),
`float_double` returns twice the input value. -/
theorem float_double_doubles (st : JuliaRuntime) (n : PyVal) (q : ℚ)
    (h1 : st.started = true) (h2 : st.floatDoubleDefined = true)
    (hq : pyFloat n = Except.ok q) :
    (float_double st n).result = Except.ok (PyVal.float (2 * q)) := by
  unfold float_double
  rw [hq]
  simp [Main_float_double, h1, h2]

/-- Witness for C1 at the loaded runtime and the integer input 3. -/
theorem float_double_doubles_witness :
    (float_double readyRuntime (PyVal.int 3)).result
      = Except.ok (PyVal.float (2 * 3)) :=
  float_double_doubles readyRuntime (PyVal.int 3) 3 (by decide) (by decide)
    (by decide)

/-- C2: the two variants of the doubling function disagree on where the
computation happens: on a float input in a loaded runtime, the source
variant performs exactly one peer invocation while the host-local variant
performs none, even though both return the doubled value. -/
theorem float_double_variants_disagree (st : JuliaRuntime) (q : ℚ)
    (h1 : st.started = true) (h2 : st.floatDoubleDefined = true) :
    (float_double st (PyVal.float q)).calls
      = [⟨"float_double", some (PyVal.float q)⟩] ∧
    (float_double_local st (PyVal.float q)).calls = [] ∧
    (float_double st (PyVal.float q)).calls
      ≠ (float_double_local st (PyVal.float q)).calls ∧
    (float_double st (PyVal.float q)).result = Except.ok (PyVal.float (2 * q)) ∧
    (float_double_local st (PyVal.float q)).result
      = Except.ok (PyVal.float (q * 2)) := by
  refine ⟨?_, ?_, ?_, ?_, ?_⟩ <;>
    simp [float_double, float_double_local, pyFloat, Main_float_double, h1, h2]

/-- Witness for C2 at the loaded runtime and the float input 1. -/
theorem float_double_variants_disagree_witness :
    (float_double readyRuntime (PyVal.float 1)).calls
      = [⟨"float_double", some (PyVal.float 1)⟩] ∧
    (float_double_local readyRuntime (PyVal.float 1)).calls = [] ∧
    (float_double readyRuntime (PyVal.float 1)).calls
      ≠ (float_double_local readyRuntime (PyVal.float 1)).calls ∧
    (float_double readyRuntime (PyVal.float 1)).result
      = Except.ok (PyVal.float (2 * 1)) ∧
    (float_double_local readyRuntime (PyVal.float 1)).result
      = Except.ok (PyVal.float (1 * 2)) :=
  float_double_variants_disagree readyRuntime 1 (by decide) (by decide)

/-- C3: a call to `hello` made when the runtime is not started or the
peer `hello` is undefined, and a call to `float_double` on a numeric
argument made when the runtime is not started or the peer `float_double`
is undefined, both fail with the initialization-class error, not a silent
wrong answer. -/
theorem calls_before_init_raise (st : JuliaRuntime) (n : PyVal)
    (hn : n.isNumeric = true) :
    (st.started = false ∨ st.helloDefined = false →
      (hello st).result = Except.error PyError.runtimeInteropError) ∧
    (st.started = false ∨ st.floatDoubleDefined = false →
      (float_double st n).result = Except.error PyError.runtimeInteropError) := by
  constructor
  · intro h
    rcases h with h | h <;> simp [hello, Main_hello, h]
  · intro h
    cases n with
    | int i =>
      rcases h with h | h <;> simp [float_double, pyFloat, Main_float_double, h]
    | float q =>
      rcases h with h | h <;> simp [float_double, pyFloat, Main_float_double, h]
    | str s => simp [PyVal.isNumeric] at hn
    | pyNone => simp [PyVal.isNumeric] at hn

/-- Witness for C3 at the freshly started runtime (script not yet loaded,
so both peer functions are undefined) and the integer input 0. -/
theorem calls_before_init_raise_witness :
    (juliaStart.started = false ∨ juliaStart.helloDefined = false →
      (hello juliaStart).result = Except.error PyError.runtimeInteropError) ∧
    (juliaStart.started = false ∨ juliaStart.floatDoubleDefined = false →
      (float_double juliaStart (PyVal.int 0)).result
        = Except.error PyError.runtimeInteropError) :=
  calls_before_init_raise juliaStart (PyVal.int 0) (by decide)

/-- C4: module initialization performs, in order, the path resolution of
the peer script relative to the module directory, the activation of the
dependency environment rooted at the parent of the module directory, and
the execution of the script, after which the peer namespace defines both
`hello` and `float_double`. -/
theorem moduleInit_sequence :
    moduleInit.snd = [InitStep.resolvePath scriptPath,
      InitStep.pkgActivate envRoot, InitStep.includeFile scriptPath] ∧
    scriptPath = moduleDir ++ ["julia_funcs.jl"] ∧
    envRoot = moduleDir.dropLast ∧
    moduleInit.fst.envActive = some envRoot ∧
    moduleInit.fst.helloDefined = true ∧
    moduleInit.fst.floatDoubleDefined = true := by
  decide

/-- C5: the concrete doubling test cases of the spec hold in the loaded
runtime: doubling 0 gives 0, doubling -3.5 gives -7.0, doubling 100
gives 200. -/
theorem float_double_test_cases :
    (float_double readyRuntime (PyVal.int 0)).result
      = Except.ok (PyVal.float 0) ∧
    (float_double readyRuntime (PyVal.float (-7/2))).result
      = Except.ok (PyVal.float (-7)) ∧
    (float_double readyRuntime (PyVal.int 100)).result
      = Except.ok (PyVal.float 200) := by
  refine ⟨?_, ?_, ?_⟩ <;>
    norm_num [float_double, pyFloat, Main_float_double, readyRuntime,
      moduleInit, includeEffect, pkgActivateEffect, juliaStart]

/-- C6: `float_double` is deterministic and mutates no bridge state: a
call leaves the runtime state unchanged, and a second call on the
resulting state with the same argument returns the same value and again
leaves the state unchanged. -/
theorem float_double_pure (st : JuliaRuntime) (n : PyVal) :
    (float_double st n).state = st ∧
    (float_double (float_double st n).state n).result
      = (float_double st n).result ∧
    (float_double (float_double st n).state n).state = st := by
  have hstate : (float_double st n).state = st := by
    unfold float_double Main_float_double
    split
    · rfl
    · split <;> rfl
  exact ⟨hstate, by rw [hstate], by rw [hstate]; exact hstate⟩

/-- C7: on every numeric input (an `int` or a `float`), the host-side
conversion inside `float_double` succeeds, so the only error the call can
produce is the initialization-class delegation error, never a host
conversion error. -/
theorem numeric_conversion_succeeds (st : JuliaRuntime) (n : PyVal)
    (hn : n.isNumeric = true) :
    (∃ q, pyFloat n = Except.ok q) ∧
    ∀ e, (float_double st n).result = Except.error e →
      e = PyError.runtimeInteropError := by
  have h : ∀ q : ℚ, ∀ e, (Main_float_double st q).result = Except.error e →
      e = PyError.runtimeInteropError := by
    intro q e he
    unfold Main_float_double at he
    split at he
    · simp at he
    · simp at he
      exact he.symm
  cases n with
  | int i =>
    exact ⟨⟨(i : ℚ), rfl⟩, fun e he =>
      h (i : ℚ) e (by simpa [float_double, pyFloat] using he)⟩
  | float q =>
    exact ⟨⟨q, rfl⟩, fun e he =>
      h q e (by simpa [float_double, pyFloat] using he)⟩
  | str s => simp [PyVal.isNumeric] at hn
  | pyNone => simp [PyVal.isNumeric] at hn

/-- Witness for C7 at the freshly started runtime and the integer
input 1. -/
theorem numeric_conversion_succeeds_witness :
    (∃ q, pyFloat (PyVal.int 1) = Except.ok q) ∧
    ∀ e, (float_double juliaStart (PyVal.int 1)).result = Except.error e →
      e = PyError.runtimeInteropError :=
  numeric_conversion_succeeds juliaStart (PyVal.int 1) (by decide)

/-- C8: given a started runtime whose script defines `hello` with a
non-empty greeting value, the host `hello` delegates to the peer function
of the same name, returns that value unchanged without raising, and
leaves the state unchanged. -/
theorem hello_returns_value (st : JuliaRuntime)
    (h1 : st.started = true) (h2 : st.helloDefined = true)
    (h3 : st.helloValue.isNonEmpty = true) :
    (hello st).result = Except.ok st.helloValue ∧
    st.helloValue.isNonEmpty = true ∧
    (hello st).calls = [⟨"hello", none⟩] ∧
    (hello st).state = st := by
  refine ⟨?_, h3, ?_, ?_⟩ <;> simp [hello, Main_hello, h1, h2]

/-- Witness for C8 at the loaded runtime. -/
theorem hello_returns_value_witness :
    (hello readyRuntime).result = Except.ok readyRuntime.helloValue ∧
    readyRuntime.helloValue.isNonEmpty = true ∧
    (hello readyRuntime).calls = [⟨"hello", none⟩] ∧
    (hello readyRuntime).state = readyRuntime :=
  hello_returns_value readyRuntime (by decide) (by decide) (by decide)

/-- C9: `float_double` coerces its argument with the host `float` before
delegating, so when the conversion yields `q`, every peer invocation it
performs carries the floating-point value `q` as argument, never the
original host value. -/
theorem float_double_forwards_float (st : JuliaRuntime) (n : PyVal) (q : ℚ)
    (hq : pyFloat n = Except.ok q) :
    ((float_double st n).calls.all fun c => c.arg == some (PyVal.float q))
      = true := by
  simp only [float_double, hq]
  unfold Main_float_double
  split <;> simp

/-- Witness for C9 at the loaded runtime and the integer input 3: the
forwarded argument is the float 3, not the integer 3. -/
theorem float_double_forwards_float_witness :
    ((float_double readyRuntime (PyVal.int 3)).calls.all
      fun c => c.arg == some (PyVal.float 3)) = true :=
  float_double_forwards_float readyRuntime (PyVal.int 3) 3 (by decide)

/-- C10: when the host conversion fails with error `e`, `float_double`
raises exactly that error, performs no peer invocation, and leaves the
runtime state unchanged. -/
theorem float_double_conversion_failure_atomic (st : JuliaRuntime)
    (n : PyVal) (e : PyError) (he : pyFloat n = Except.error e) :
    float_double st n = ⟨Except.error e, st, []⟩ := by
  unfold float_double
  rw [he]

/-- Witness for C10 at the loaded runtime and the null input, on which
the conversion raises a TypeError. -/
theorem float_double_conversion_failure_atomic_witness :
    float_double readyRuntime PyVal.pyNone
      = ⟨Except.error PyError.typeError, readyRuntime, []⟩ :=
  float_double_conversion_failure_atomic readyRuntime PyVal.pyNone
    PyError.typeError (by decide)
